import Mathlib

/-!
Verification of `src/create_review_session.py`.

The script is a linear pipeline of calls into external services (MLflow,
Spark SQL, Databricks secrets, Slack).  We embed it shallowly: every external
call becomes an `Event`, the responses the environment can give (the trace
query result, whether `get_dataset` raises, the local clock, whether the Slack
post raises) become an `Env` record, and `main` becomes the pure function
`runMain : Args → Env → List Event × Outcome` that returns the sequence of
external calls the run performs and how the process terminates.
-/

/-- ASCII core of Python `str.isalnum` (the script only ever feeds it
command-line identifier characters). -/
def pyIsAlnum (c : Char) : Bool := c.isAlphanum

/-- Embedding of line 200 of the source:
`"".join(c if c.isalnum() or c == "_" else "_" for c in args.session_name_prefix)`. -/
def sanitizePfx (s : String) : String :=
  String.mk (s.data.map fun c => if pyIsAlnum c || c = '_' then c else '_')

/-- Whitespace characters stripped by Python `str.strip`. -/
def pyIsSpace (c : Char) : Bool :=
  c = ' ' || c = '\t' || c = '\n' || c = '\r' || c = '\x0b' || c = '\x0c'

/-- Python `str.strip`: remove leading and trailing whitespace. -/
def pyStrip (s : String) : String :=
  String.mk (((s.data.dropWhile pyIsSpace).reverse.dropWhile pyIsSpace).reverse)

/-- Split a character list at every occurrence of `sep`, keeping empty pieces,
mirroring Python `str.split(sep)` for a one-character separator. -/
def splitOnCharAux (sep : Char) : List Char → List Char → List (List Char)
  | [], acc => [acc.reverse]
  | c :: cs, acc =>
      if c = sep then acc.reverse :: splitOnCharAux sep cs []
      else splitOnCharAux sep cs (c :: acc)

/-- Python `s.split(",")`: note `"".split(",") == [""]`. -/
def pySplitComma (s : String) : List String :=
  (splitOnCharAux ',' s.data []).map String.mk

/-- Embedding of line 196 of the source:
`[e.strip() for e in args.reviewer_emails.split(",") if e.strip()]`. -/
def parseReviewerEmails (s : String) : List String :=
  ((pySplitComma s).filter fun e => pyStrip e != "").map fun e => pyStrip e

/-- ASCII core of Python `str.lower`, used on the `--notify-users` flag. -/
def pyLower (s : String) : String :=
  String.mk (s.data.map Char.toLower)

/-- Python `", ".join(xs)`. -/
def joinCommaSpace : List String → String
  | [] => ""
  | [e] => e
  | e :: rest => e ++ ", " ++ joinCommaSpace rest

/-- The decimal digit character for `d < 10`. -/
def digitChar (d : Nat) : Char := Char.ofNat (48 + d)

/-- Two-digit zero-padded decimal field of `strftime` (faithful for the
in-range values a real clock produces, `n < 100`). -/
def pad2 (n : Nat) : String :=
  String.mk [digitChar (n / 10 % 10), digitChar (n % 10)]

/-- Four-digit zero-padded decimal field of `strftime` (faithful for
`n < 10000`, which covers every Python `datetime` year). -/
def pad4 (n : Nat) : String :=
  String.mk [digitChar (n / 1000 % 10), digitChar (n / 100 % 10),
             digitChar (n / 10 % 10), digitChar (n % 10)]

/-- A reading of the local process clock, second precision. -/
structure LocalTime where
  year : Nat
  month : Nat
  day : Nat
  hour : Nat
  minute : Nat
  second : Nat
deriving DecidableEq

/-- Embedding of `datetime.now().strftime("%Y%m%d_%H%M%S")` (line 199). -/
def formatTimestamp (t : LocalTime) : String :=
  pad4 t.year ++ pad2 t.month ++ pad2 t.day ++ "_" ++
  pad2 t.hour ++ pad2 t.minute ++ pad2 t.second

/-- A pandas DataFrame as the script observes it: a list of column labels and
a list of rows (row cell values are opaque strings aligned with the labels).
`mlflow.search_traces(..., return_type="pandas")` always returns a frame with
a fixed non-empty column set, so the pandas `.empty` test used at line 153
reduces to having zero rows. -/
structure DataFrame where
  columns : List String
  rows : List (List String)
deriving DecidableEq

/-- `df.rename(columns={src: tgt})`: relabel every column equal to `src`. -/
def renameCol (cols : List String) (src tgt : String) : List String :=
  cols.map fun c => if c = src then tgt else c

/-- One conditional rename of lines 159-162: applied only when the source
label is present and the target label is absent. -/
def renameStep (src tgt : String) (df : DataFrame) : DataFrame :=
  if src ∈ df.columns ∧ tgt ∉ df.columns then
    { df with columns := renameCol df.columns src tgt }
  else df

/-- The two conditional renames of `_fetch_traces` (lines 157-162), in source
order: `request`→`inputs` first, then `response`→`outputs` on the result. -/
def applyTraceRenames (df : DataFrame) : DataFrame :=
  renameStep "response" "outputs" (renameStep "request" "inputs" df)

/-- Line 33 of the source. -/
def LABEL_SCHEMA_NAME : String := "conversation_quality"

/-- Fixed recipient of the Slack DM (line 128). -/
def NOTIFY_EMAIL : String := "brennan.beal@databricks.com"

/-- One external call made by the script.  `createLabelSchema` records the
fields of the `label_schemas.create_label_schema` call that the claims are
about: name, type, title, the numeric input range (`InputNumeric(min_value=1.0,
max_value=5.0)`, held as naturals), `enable_comment` and `overwrite`; the
instruction text is a fixed constant and is not modelled. -/
inductive Event where
  | setTrackingUri (uri : String)
  | setExperiment (experimentId : String)
  | sqlCreateSchemaIfNotExists (catalog schema : String)
  | searchTraces (experimentId : String) (maxResults : Int)
  | getDataset (name : String)
  | createDataset (name : String)
  | mergeRecords (name : String) (df : DataFrame)
  | createLabelSchema (name ty title : String) (minValue maxValue : Nat)
      (enableComment overwrite : Bool)
  | createLabelingSession (name : String) (assignedUsers : List String)
      (labelSchemas : List String)
  | addDataset (sessionName datasetName : String)
  | secretsGet (scope key : String)
  | usersLookupByEmail (email : String)
  | chatPostMessage (channel text : String)
deriving DecidableEq

/-- The value `_get_or_create_dataset` returns, tagged by which branch
produced it. -/
inductive Dataset where
  | fetched (name : String)
  | created (name : String)
deriving DecidableEq

/-- Embedding of `_get_or_create_dataset` (lines 167-175): try
`get_dataset(name=...)`; on any exception fall back to
`create_dataset(name=...)` with the same name.  `fetchRaises` is the
environment's answer to whether the fetch raises. -/
def getOrCreateDataset (name : String) (fetchRaises : Bool) : Dataset × List Event :=
  if fetchRaises then
    (Dataset.created name, [Event.getDataset name, Event.createDataset name])
  else
    (Dataset.fetched name, [Event.getDataset name])

/-- Embedding of `_ensure_label_schema` (lines 178-188). -/
def ensureLabelSchemaEvents : List Event :=
  [Event.createLabelSchema LABEL_SCHEMA_NAME "feedback" "Conversation Quality (1–5)"
    1 5 true true]

/-- The message body built in `_send_slack_notification` (lines 132-139). -/
def slackText (sessionName : String) (numTraces : Nat) (reviewers : List String)
    (url : String) : String :=
  let reviewersStr := if reviewers.isEmpty then "(none)" else joinCommaSpace reviewers
  "*New agent review session created* :clipboard:\n" ++
  "• *Session:* `" ++ sessionName ++ "`\n" ++
  "• *Traces:* " ++ toString numTraces ++ " conversations to review\n" ++
  "• *Reviewers:* " ++ reviewersStr ++ "\n" ++
  "• *Link:* " ++ url

/-- The external calls of `_send_slack_notification` (lines 115-141), in
source order: secret fetch, user lookup, message post. -/
def sendSlackNotificationEvents (secretScope sessionName sessionUrl : String)
    (reviewers : List String) (numTraces : Nat) (channel : String) : List Event :=
  [Event.secretsGet secretScope "slack-bot-token",
   Event.usersLookupByEmail NOTIFY_EMAIL,
   Event.chatPostMessage channel (slackText sessionName numTraces reviewers sessionUrl)]

/-- The parsed command-line arguments (`parse_args`, lines 46-95).
`session_name_pfx` embeds `--session-name-prefix`. -/
structure Args where
  experiment_id : String
  num_traces : Int
  reviewer_emails : String
  session_name_pfx : String
  uc_catalog : String
  uc_schema : String
  slack_secret_scope : String
  notify_users : String
deriving DecidableEq

/-- The responses of the external world during one run: the DataFrame the
trace query returns, whether `get_dataset` raises, the local clock, the Slack
channel resolved for the fixed recipient, the labeling-session URL, and
whether the `chat_postMessage` call raises (standing for an exception inside
the notification step — `_get_secret`, the user lookup and the post behave
alike; the post is the modelled raise point). -/
structure Env where
  searchResult : DataFrame
  getDatasetRaises : Bool
  now : LocalTime
  slackChannel : String
  sessionUrl : String
  chatPostRaises : Bool
deriving DecidableEq

/-- How the process terminates: `sys.exit(code)`, an uncaught exception, or a
normal return from `main`. -/
inductive Outcome where
  | exited (code : Nat)
  | crashed
  | success
deriving DecidableEq

/-- The guard of step 7 (line 250):
`args.notify_users.lower() == "true" and args.slack_secret_scope`. -/
def notifyCondition (args : Args) : Bool :=
  pyLower args.notify_users == "true" && args.slack_secret_scope != ""

/-- `session_name = f"{safe_prefix}_{timestamp}"` (line 201). -/
def sessionNameOf (args : Args) (env : Env) : String :=
  sanitizePfx args.session_name_pfx ++ "_" ++ formatTimestamp env.now

/-- `uc_table_name = f"{args.uc_catalog}.{args.uc_schema}.{session_name}"`
(line 202). -/
def ucTableNameOf (args : Args) (env : Env) : String :=
  args.uc_catalog ++ "." ++ args.uc_schema ++ "." ++ sessionNameOf args env

/-- External calls made before the zero-trace check: MLflow configuration
(lines 217-218), the `CREATE SCHEMA IF NOT EXISTS` statement of `_init_spark`
(line 106), and the trace query itself (lines 146-151). -/
def setupEvents (args : Args) : List Event :=
  [Event.setTrackingUri "databricks",
   Event.setExperiment args.experiment_id,
   Event.sqlCreateSchemaIfNotExists args.uc_catalog args.uc_schema,
   Event.searchTraces args.experiment_id args.num_traces]

/-- External calls of steps 1-6 (lines 216-247): setup, dataset
get-or-create, merge of the renamed traces, label-schema registration,
labeling-session creation and dataset attachment. -/
def coreEvents (args : Args) (env : Env) : List Event :=
  setupEvents args ++
  (getOrCreateDataset (ucTableNameOf args env) env.getDatasetRaises).2 ++
  [Event.mergeRecords (ucTableNameOf args env) (applyTraceRenames env.searchResult)] ++
  ensureLabelSchemaEvents ++
  [Event.createLabelingSession (sessionNameOf args env)
     (parseReviewerEmails args.reviewer_emails) [LABEL_SCHEMA_NAME],
   Event.addDataset (sessionNameOf args env) (ucTableNameOf args env)]

/-- External calls of the notification step (lines 250-258): the trace count
in the message is `len(traces_df)` after the renames. -/
def notifyEvents (args : Args) (env : Env) : List Event :=
  sendSlackNotificationEvents args.slack_secret_scope (sessionNameOf args env)
    env.sessionUrl (parseReviewerEmails args.reviewer_emails)
    (applyTraceRenames env.searchResult).rows.length env.slackChannel

/-- Embedding of `main` (lines 191-270).  If the trace query returns an empty
frame the run calls `sys.exit(1)` right after the query (line 155); otherwise
steps 4-6 run, and step 7 runs exactly when `notifyCondition` holds, crashing
the process when the Slack post raises. -/
def runMain (args : Args) (env : Env) : List Event × Outcome :=
  if env.searchResult.rows.isEmpty then
    (setupEvents args, Outcome.exited 1)
  else if notifyCondition args then
    (coreEvents args env ++ notifyEvents args env,
     if env.chatPostRaises then Outcome.crashed else Outcome.success)
  else
    (coreEvents args env, Outcome.success)

/-- Calls to the chat-notification path: secret fetch, user lookup, post. -/
def isChatServiceCall : Event → Bool
  | Event.secretsGet _ _ => true
  | Event.usersLookupByEmail _ => true
  | Event.chatPostMessage _ _ => true
  | _ => false

/-- The dataset merge call. -/
def isMergeEvent : Event → Bool
  | Event.mergeRecords _ _ => true
  | _ => false

/-- The label-schema registration call. -/
def isLabelSchemaEvent : Event → Bool
  | Event.createLabelSchema _ _ _ _ _ _ _ => true
  | _ => false

/-- The three steps the notification must come after: merge, label-schema
registration, labeling-session creation. -/
def isPriorStepEvent : Event → Bool
  | Event.mergeRecords _ _ => true
  | Event.createLabelSchema _ _ _ _ _ _ _ => true
  | Event.createLabelingSession _ _ _ => true
  | _ => false

/-- Every mutation or fetch the zero-trace claim forbids after the check:
dataset fetch/create, merge, label-schema registration, session creation and
attachment, and the chat-path calls. -/
def isPostCheckMutation : Event → Bool
  | Event.getDataset _ => true
  | Event.createDataset _ => true
  | Event.mergeRecords _ _ => true
  | Event.createLabelSchema _ _ _ _ _ _ _ => true
  | Event.createLabelingSession _ _ _ => true
  | Event.addDataset _ _ => true
  | Event.secretsGet _ _ => true
  | Event.usersLookupByEmail _ => true
  | Event.chatPostMessage _ _ => true
  | _ => false

/-- Schema mutations of any kind: the Unity Catalog
`CREATE SCHEMA IF NOT EXISTS` DDL statement and the label-schema
registration. -/
def isSchemaMutation : Event → Bool
  | Event.sqlCreateSchemaIfNotExists _ _ => true
  | Event.createLabelSchema _ _ _ _ _ _ _ => true
  | _ => false

/-! ### Helper lemmas -/

/-- A list comprehension `[f e for e in l if p (f e)]` equals filtering the
mapped list. -/
theorem filter_comp_map {α β : Type} (f : α → β) (p : β → Bool) (l : List α) :
    (l.filter fun e => p (f e)).map f = (l.map f).filter p := by
  induction l with
  | nil => rfl
  | cons a t ih =>
      by_cases h : p (f a) = true
      · simp [List.filter_cons, h, ih]
      · simp only [Bool.not_eq_true] at h
        simp [List.filter_cons, h, ih]

/-- `getD` commutes with `map` when the default is a fixed point of the
function. -/
theorem getD_map_of_fixed {α : Type} (f : α → α) (d : α) (hd : f d = d) :
    ∀ (l : List α) (i : Nat), (l.map f).getD i d = f (l.getD i d) := by
  intro l
  induction l with
  | nil => intro i; simp [hd]
  | cons a t ih =>
      intro i
      cases i with
      | zero => simp
      | succ j => simpa using ih j

theorem mem_renameCol_iff {y src tgt : String} (cols : List String)
    (h1 : y ≠ src) (h2 : y ≠ tgt) :
    y ∈ renameCol cols src tgt ↔ y ∈ cols := by
  simp only [renameCol, List.mem_map]
  constructor
  · rintro ⟨c, hc, he⟩
    by_cases hcs : c = src
    · subst hcs
      rw [if_pos rfl] at he
      exact absurd he.symm h2
    · rw [if_neg hcs] at he
      exact he ▸ hc
  · intro hy
    exact ⟨y, hy, by rw [if_neg h1]⟩

theorem tgt_mem_renameCol {src tgt : String} (cols : List String) (h : src ∈ cols) :
    tgt ∈ renameCol cols src tgt := by
  simp only [renameCol, List.mem_map]
  exact ⟨src, h, by rw [if_pos rfl]⟩

theorem src_not_mem_renameCol {src tgt : String} (cols : List String) (hne : src ≠ tgt) :
    src ∉ renameCol cols src tgt := by
  simp only [renameCol, List.mem_map]
  rintro ⟨c, hc, he⟩
  by_cases hcs : c = src
  · subst hcs
    rw [if_pos rfl] at he
    exact hne he.symm
  · rw [if_neg hcs] at he
    exact hcs he

theorem renameStep_of_not_applicable {src tgt : String} (df : DataFrame)
    (h : src ∉ df.columns ∨ tgt ∈ df.columns) :
    renameStep src tgt df = df := by
  unfold renameStep
  rcases h with h | h
  · rw [if_neg]; rintro ⟨h1, _⟩; exact h h1
  · rw [if_neg]; rintro ⟨_, h2⟩; exact h2 h

theorem renameStep_of_applicable {src tgt : String} (df : DataFrame)
    (h1 : src ∈ df.columns) (h2 : tgt ∉ df.columns) :
    renameStep src tgt df = { df with columns := renameCol df.columns src tgt } := by
  unfold renameStep
  rw [if_pos ⟨h1, h2⟩]

theorem renameStep_rows (src tgt : String) (df : DataFrame) :
    (renameStep src tgt df).rows = df.rows := by
  unfold renameStep
  split <;> rfl

theorem mem_renameStep_iff {y src tgt : String} (df : DataFrame)
    (h1 : y ≠ src) (h2 : y ≠ tgt) :
    y ∈ (renameStep src tgt df).columns ↔ y ∈ df.columns := by
  unfold renameStep
  split
  · exact mem_renameCol_iff df.columns h1 h2
  · exact Iff.rfl

theorem applyTraceRenames_rows (df : DataFrame) :
    (applyTraceRenames df).rows = df.rows := by
  unfold applyTraceRenames
  rw [renameStep_rows, renameStep_rows]

theorem renameStep_skip {src tgt : String} (df : DataFrame)
    (h : ¬(src ∈ df.columns ∧ tgt ∉ df.columns)) :
    renameStep src tgt df = df := by
  unfold renameStep
  rw [if_neg h]

theorem renameCol_comm (cols : List String) :
    renameCol (renameCol cols "request" "inputs") "response" "outputs" =
    renameCol (renameCol cols "response" "outputs") "request" "inputs" := by
  simp only [renameCol, List.map_map]
  apply List.map_congr_left
  intro a _
  simp only [Function.comp]
  by_cases h1 : a = "request"
  · subst h1; decide
  · by_cases h2 : a = "response"
    · subst h2; decide
    · simp [h1, h2]

theorem traceRenames_comm (df : DataFrame) :
    renameStep "request" "inputs" (renameStep "response" "outputs" df) =
    applyTraceRenames df := by
  obtain ⟨cols, rows⟩ := df
  unfold applyTraceRenames
  by_cases hA : "request" ∈ (DataFrame.mk cols rows).columns ∧
      "inputs" ∉ (DataFrame.mk cols rows).columns
  · by_cases hB : "response" ∈ (DataFrame.mk cols rows).columns ∧
        "outputs" ∉ (DataFrame.mk cols rows).columns
    · rw [renameStep_of_applicable _ hA.1 hA.2, renameStep_of_applicable _ hB.1 hB.2]
      have hA1 : "request" ∈ (renameCol cols "response" "outputs") :=
        (mem_renameCol_iff cols (by decide) (by decide)).mpr hA.1
      have hA2 : "inputs" ∉ (renameCol cols "response" "outputs") := fun h =>
        hA.2 ((mem_renameCol_iff cols (by decide) (by decide)).mp h)
      have hB1 : "response" ∈ (renameCol cols "request" "inputs") :=
        (mem_renameCol_iff cols (by decide) (by decide)).mpr hB.1
      have hB2 : "outputs" ∉ (renameCol cols "request" "inputs") := fun h =>
        hB.2 ((mem_renameCol_iff cols (by decide) (by decide)).mp h)
      rw [renameStep_of_applicable _ hA1 hA2, renameStep_of_applicable _ hB1 hB2]
      simp only [DataFrame.mk.injEq, and_true]
      exact (renameCol_comm cols).symm
    · have hB' : ¬("response" ∈ (renameStep "request" "inputs" (DataFrame.mk cols rows)).columns ∧
          "outputs" ∉ (renameStep "request" "inputs" (DataFrame.mk cols rows)).columns) := by
        rintro ⟨hr, ho⟩
        exact hB ⟨(mem_renameStep_iff _ (by decide) (by decide)).mp hr,
          fun h => ho ((mem_renameStep_iff _ (by decide) (by decide)).mpr h)⟩
      rw [renameStep_skip _ hB, renameStep_skip _ hB']
  · by_cases hB : "response" ∈ (DataFrame.mk cols rows).columns ∧
        "outputs" ∉ (DataFrame.mk cols rows).columns
    · have hA' : ¬("request" ∈ (renameStep "response" "outputs" (DataFrame.mk cols rows)).columns ∧
          "inputs" ∉ (renameStep "response" "outputs" (DataFrame.mk cols rows)).columns) := by
        rintro ⟨hr, hi⟩
        exact hA ⟨(mem_renameStep_iff _ (by decide) (by decide)).mp hr,
          fun h => hi ((mem_renameStep_iff _ (by decide) (by decide)).mpr h)⟩
      rw [renameStep_skip _ hA, renameStep_skip _ hA']
    · rw [renameStep_skip _ hB, renameStep_skip _ hA, renameStep_skip _ hB]

theorem applyTraceRenames_idem (df : DataFrame) :
    applyTraceRenames (applyTraceRenames df) = applyTraceRenames df := by
  have h1 : renameStep "request" "inputs" (applyTraceRenames df) = applyTraceRenames df := by
    apply renameStep_skip
    rintro ⟨hreq, hinp⟩
    by_cases hA : "request" ∈ df.columns ∧ "inputs" ∉ df.columns
    · apply hinp
      unfold applyTraceRenames
      rw [(mem_renameStep_iff _ (by decide) (by decide) :
        "inputs" ∈ (renameStep "response" "outputs" (renameStep "request" "inputs" df)).columns ↔ _)]
      rw [renameStep_of_applicable _ hA.1 hA.2]
      exact tgt_mem_renameCol df.columns hA.1
    · unfold applyTraceRenames at hreq hinp
      rw [renameStep_skip _ hA] at hreq hinp
      rw [(mem_renameStep_iff _ (by decide) (by decide) :
        "request" ∈ (renameStep "response" "outputs" df).columns ↔ _)] at hreq
      rw [(mem_renameStep_iff _ (by decide) (by decide) :
        "inputs" ∈ (renameStep "response" "outputs" df).columns ↔ _)] at hinp
      exact hA ⟨hreq, hinp⟩
  have h2 : renameStep "response" "outputs" (applyTraceRenames df) = applyTraceRenames df := by
    apply renameStep_skip
    rintro ⟨hresp, hout⟩
    by_cases hB : "response" ∈ (renameStep "request" "inputs" df).columns ∧
        "outputs" ∉ (renameStep "request" "inputs" df).columns
    · apply hout
      unfold applyTraceRenames
      rw [renameStep_of_applicable _ hB.1 hB.2]
      exact tgt_mem_renameCol _ hB.1
    · unfold applyTraceRenames at hresp hout
      rw [renameStep_skip _ hB] at hresp hout
      exact hB ⟨hresp, hout⟩
  show renameStep "response" "outputs" (renameStep "request" "inputs" (applyTraceRenames df)) =
    applyTraceRenames df
  rw [h1, h2]

theorem notifyCondition_iff (args : Args) :
    notifyCondition args = true ↔
      (pyLower args.notify_users = "true" ∧ args.slack_secret_scope ≠ "") := by
  simp [notifyCondition, Bool.and_eq_true, beq_iff_eq, bne_iff_ne]

theorem no_chat_in_setup (args : Args) :
    ∀ e ∈ setupEvents args, isChatServiceCall e = false := by
  intro e he
  simp only [setupEvents, List.mem_cons, List.not_mem_nil, or_false] at he
  rcases he with h | h | h | h <;> subst h <;> rfl

theorem no_chat_in_core (args : Args) (env : Env) :
    ∀ e ∈ coreEvents args env, isChatServiceCall e = false := by
  intro e he
  cases hgd : env.getDatasetRaises
  · simp only [coreEvents, setupEvents, getOrCreateDataset, ensureLabelSchemaEvents, hgd,
      Bool.false_eq_true, if_false, List.cons_append, List.nil_append, List.mem_cons,
      List.not_mem_nil, or_false] at he
    rcases he with h | h | h | h | h | h | h | h | h <;> subst h <;> rfl
  · simp only [coreEvents, setupEvents, getOrCreateDataset, ensureLabelSchemaEvents, hgd,
      if_true, List.cons_append, List.nil_append, List.mem_cons,
      List.not_mem_nil, or_false] at he
    rcases he with h | h | h | h | h | h | h | h | h | h <;> subst h <;> rfl

theorem no_prior_in_notify (args : Args) (env : Env) :
    ∀ e ∈ notifyEvents args env, isPriorStepEvent e = false := by
  intro e he
  simp only [notifyEvents, sendSlackNotificationEvents, List.mem_cons,
    List.not_mem_nil, or_false] at he
  rcases he with h | h | h <;> subst h <;> rfl

theorem ordered_of_split {α : Type} (P Q : α → Bool) (l a b : List α) (hl : l = a ++ b)
    (ha : ∀ e ∈ a, P e = false) (hb : ∀ e ∈ b, Q e = false) :
    ∀ (i j : Nat) (hi : i < l.length) (hj : j < l.length),
      P (l.get ⟨i, hi⟩) = true → Q (l.get ⟨j, hj⟩) = true → j < i := by
  subst hl
  intro i j hi hj hP hQ
  rw [List.get_eq_getElem] at hP hQ
  have hia : ¬ i < a.length := by
    intro hlt
    rw [List.getElem_append_left hlt] at hP
    rw [ha _ (List.getElem_mem hlt)] at hP
    exact Bool.false_ne_true hP
  have hjb : j < a.length := by
    by_contra hge
    push_neg at hge
    have hj' : j - a.length < b.length := by
      have := hj
      rw [List.length_append] at this
      omega
    rw [List.getElem_append_right hge] at hQ
    rw [hb _ (List.getElem_mem hj')] at hQ
    exact Bool.false_ne_true hQ
  omega

theorem length_underscore : ("_" : String).length = 1 := rfl

theorem formatTimestamp_length (t : LocalTime) : (formatTimestamp t).length = 15 := by
  simp [formatTimestamp, pad4, pad2, String.length_append, String.length_mk,
    length_underscore]

/-! ### Concrete fixtures used by witnesses and counterexamples -/

/-- Arguments of a typical notifying run. -/
def argsW : Args :=
  { experiment_id := "3284073597979440"
    num_traces := 2
    reviewer_emails := "a@x.com, b@x.com"
    session_name_pfx := "agent review!"
    uc_catalog := "main"
    uc_schema := "agent_review"
    slack_secret_scope := "scope1"
    notify_users := "True" }

/-- A two-row trace query result with the raw `request`/`response` labels. -/
def dfW : DataFrame :=
  { columns := ["trace_id", "request", "response"]
    rows := [["t1", "q1", "a1"], ["t2", "q2", "a2"]] }

/-- Environment of a run that reaches the notification step and whose Slack
post raises. -/
def envW : Env :=
  { searchResult := dfW
    getDatasetRaises := false
    now := { year := 2026, month := 10, day := 12, hour := 9, minute := 30, second := 5 }
    slackChannel := "U123"
    sessionUrl := "https://review/app"
    chatPostRaises := true }

/-- Environment of a run whose trace query returns zero rows. -/
def envEmpty : Env :=
  { envW with
    searchResult := { columns := ["trace_id", "request", "response"], rows := [] }
    chatPostRaises := false }

/-! ### Claim theorems -/

/-- C2: the sanitizer maps each character that is not alphanumeric and not an
underscore to an underscore and leaves the others unchanged, so its output
has only alphanumeric characters and underscores and exactly the input's
length. -/
theorem C2_sanitizer (s : String) :
    (sanitizePfx s).length = s.length ∧
    (∀ c ∈ (sanitizePfx s).data, pyIsAlnum c = true ∨ c = '_') ∧
    (∀ i : Nat, (sanitizePfx s).data.getD i '_' =
      if pyIsAlnum (s.data.getD i '_') || s.data.getD i '_' = '_' then s.data.getD i '_'
      else '_') := by
  refine ⟨?_, ?_, ?_⟩
  · show (String.mk (s.data.map _)).length = s.length
    rw [String.length_mk, List.length_map]
    rfl
  · intro c hc
    simp only [sanitizePfx, List.mem_map] at hc
    obtain ⟨a, _, ha⟩ := hc
    by_cases h : (pyIsAlnum a || a = '_') = true
    · rw [if_pos h] at ha
      subst ha
      simpa using h
    · rw [if_neg h] at ha
      right
      exact ha.symm
  · intro i
    exact getD_map_of_fixed (fun c => if pyIsAlnum c || c = '_' then c else '_') '_'
      (by decide) s.data i

theorem C2_witness :
    (sanitizePfx "agent review!").length = ("agent review!" : String).length ∧
    sanitizePfx "agent review!" = "agent_review_" :=
  ⟨(C2_sanitizer "agent review!").1, by decide⟩

/-- C4: dataset resolution attempts the fetch first; the create call happens
if and only if the fetch raises, exactly once, with the same name; on a
successful fetch no create happens and the fetched dataset is returned. -/
theorem C4_get_or_create (name : String) (fetchRaises : Bool) :
    ((getOrCreateDataset name fetchRaises).2.head? = some (Event.getDataset name)) ∧
    (fetchRaises = true →
      (getOrCreateDataset name fetchRaises).2 =
        [Event.getDataset name, Event.createDataset name] ∧
      (getOrCreateDataset name fetchRaises).1 = Dataset.created name) ∧
    (fetchRaises = false →
      (getOrCreateDataset name fetchRaises).2 = [Event.getDataset name] ∧
      (getOrCreateDataset name fetchRaises).1 = Dataset.fetched name) := by
  cases fetchRaises <;> simp [getOrCreateDataset]

theorem C4_witness :
    (true = true) ∧
    (getOrCreateDataset "main.agent_review.t" true).2 =
      [Event.getDataset "main.agent_review.t", Event.createDataset "main.agent_review.t"] :=
  ⟨rfl, ((C4_get_or_create "main.agent_review.t" true).2.1 rfl).1⟩

/-- C5: each rename is applied only when the target column is absent and the
source present, the two renames are decided independently (they commute), the
transformation is a no-op when `inputs`/`outputs` already exist or when
`request`/`response` are absent, and applying it twice equals applying it
once. -/
theorem C5_column_renames (df : DataFrame) :
    (("inputs" ∈ df.columns ∧ "outputs" ∈ df.columns) → applyTraceRenames df = df) ∧
    (("request" ∉ df.columns ∧ "response" ∉ df.columns) → applyTraceRenames df = df) ∧
    (("request" ∈ df.columns ∧ "inputs" ∉ df.columns) →
      "inputs" ∈ (applyTraceRenames df).columns ∧
      "request" ∉ (applyTraceRenames df).columns) ∧
    (("response" ∈ df.columns ∧ "outputs" ∉ df.columns) →
      "outputs" ∈ (applyTraceRenames df).columns ∧
      "response" ∉ (applyTraceRenames df).columns) ∧
    (renameStep "request" "inputs" (renameStep "response" "outputs" df) =
      applyTraceRenames df) ∧
    (applyTraceRenames (applyTraceRenames df) = applyTraceRenames df) := by
  refine ⟨?_, ?_, ?_, ?_, traceRenames_comm df, applyTraceRenames_idem df⟩
  · rintro ⟨hin, hout⟩
    unfold applyTraceRenames
    rw [renameStep_skip df (fun h => h.2 hin), renameStep_skip df (fun h => h.2 hout)]
  · rintro ⟨hreq, hresp⟩
    unfold applyTraceRenames
    rw [renameStep_skip df (fun h => hreq h.1), renameStep_skip df (fun h => hresp h.1)]
  · rintro ⟨hreq, hinp⟩
    unfold applyTraceRenames
    rw [renameStep_of_applicable df hreq hinp]
    constructor
    · rw [mem_renameStep_iff _ (by decide) (by decide)]
      exact tgt_mem_renameCol df.columns hreq
    · rw [mem_renameStep_iff _ (by decide) (by decide)]
      exact src_not_mem_renameCol df.columns (by decide)
  · rintro ⟨hresp, hout⟩
    have hB1 : "response" ∈ (renameStep "request" "inputs" df).columns :=
      (mem_renameStep_iff df (by decide) (by decide)).mpr hresp
    have hB2 : "outputs" ∉ (renameStep "request" "inputs" df).columns := fun h =>
      hout ((mem_renameStep_iff df (by decide) (by decide)).mp h)
    unfold applyTraceRenames
    rw [renameStep_of_applicable _ hB1 hB2]
    exact ⟨tgt_mem_renameCol _ hB1, src_not_mem_renameCol _ (by decide)⟩

theorem C5_witness :
    ("request" ∈ dfW.columns ∧ "inputs" ∉ dfW.columns) ∧
    "inputs" ∈ (applyTraceRenames dfW).columns ∧
    "request" ∉ (applyTraceRenames dfW).columns :=
  ⟨by decide, (C5_column_renames dfW).2.2.1 ⟨by decide, by decide⟩⟩

/-- C10: the parsed reviewer list is the comma-separated tokens with
surrounding whitespace stripped and the empty or whitespace-only tokens
dropped, so it never contains an empty entry. -/
theorem C10_reviewer_emails (s : String) :
    parseReviewerEmails s =
      ((pySplitComma s).map fun e => pyStrip e).filter (fun e => e != "") ∧
    ∀ e ∈ parseReviewerEmails s, e ≠ "" ∧ ∃ t ∈ pySplitComma s, e = pyStrip t := by
  constructor
  · exact filter_comp_map (fun e => pyStrip e) (fun e => e != "") (pySplitComma s)
  · intro e he
    simp only [parseReviewerEmails, List.mem_map, List.mem_filter] at he
    obtain ⟨t, ⟨ht, hne⟩, rfl⟩ := he
    exact ⟨bne_iff_ne.mp hne, t, ht, rfl⟩

theorem C10_witness :
    ("a@x.com" ∈ parseReviewerEmails "a@x.com, , b@x.com,,") ∧
    "a@x.com" ≠ "" ∧
    parseReviewerEmails "" = [] ∧
    parseReviewerEmails " , ," = [] :=
  ⟨by decide,
   ((C10_reviewer_emails "a@x.com, , b@x.com,,").2 "a@x.com" (by decide)).1,
   by decide, by decide⟩

theorem filter_merge_core (args : Args) (env : Env) :
    (coreEvents args env).filter isMergeEvent =
      [Event.mergeRecords (ucTableNameOf args env) (applyTraceRenames env.searchResult)] := by
  cases hgd : env.getDatasetRaises <;>
    simp [coreEvents, setupEvents, getOrCreateDataset, ensureLabelSchemaEvents, hgd,
      isMergeEvent, List.filter_append, List.filter_cons]

theorem filter_merge_notify (args : Args) (env : Env) :
    (notifyEvents args env).filter isMergeEvent = [] := rfl

theorem filter_schema_core (args : Args) (env : Env) :
    (coreEvents args env).filter isLabelSchemaEvent =
      [Event.createLabelSchema "conversation_quality" "feedback"
        "Conversation Quality (1–5)" 1 5 true true] := by
  cases hgd : env.getDatasetRaises <;>
    simp [coreEvents, setupEvents, getOrCreateDataset, ensureLabelSchemaEvents, hgd,
      isLabelSchemaEvent, LABEL_SCHEMA_NAME, List.filter_append, List.filter_cons]

theorem filter_schema_notify (args : Args) (env : Env) :
    (notifyEvents args env).filter isLabelSchemaEvent = [] := rfl

theorem session_mem_core (args : Args) (env : Env) :
    Event.createLabelingSession (sessionNameOf args env)
      (parseReviewerEmails args.reviewer_emails) [LABEL_SCHEMA_NAME] ∈
      coreEvents args env := by
  cases hgd : env.getDatasetRaises <;>
    simp [coreEvents, setupEvents, getOrCreateDataset, ensureLabelSchemaEvents, hgd]

theorem getDataset_mem_core (args : Args) (env : Env) :
    Event.getDataset (ucTableNameOf args env) ∈ coreEvents args env := by
  cases hgd : env.getDatasetRaises <;>
    simp [coreEvents, setupEvents, getOrCreateDataset, ensureLabelSchemaEvents, hgd]

theorem merge_mem_core (args : Args) (env : Env) :
    Event.mergeRecords (ucTableNameOf args env) (applyTraceRenames env.searchResult) ∈
      coreEvents args env := by
  cases hgd : env.getDatasetRaises <;>
    simp [coreEvents, setupEvents, getOrCreateDataset, ensureLabelSchemaEvents, hgd]

theorem labelSchema_mem_core (args : Args) (env : Env) :
    Event.createLabelSchema "conversation_quality" "feedback"
      "Conversation Quality (1–5)" 1 5 true true ∈ coreEvents args env := by
  cases hgd : env.getDatasetRaises <;>
    simp [coreEvents, setupEvents, getOrCreateDataset, ensureLabelSchemaEvents,
      LABEL_SCHEMA_NAME, hgd]

/-- C1 (amended): a zero-trace run exits with status 1 and performs no
dataset fetch or create, no merge, no label-schema registration, no
labeling-session creation or attachment, and no chat-path call — though the
`CREATE SCHEMA IF NOT EXISTS` DDL statement has already been issued. -/
theorem C1_zero_traces_amended (args : Args) (env : Env)
    (h : env.searchResult.rows = []) :
    (runMain args env).2 = Outcome.exited 1 ∧
    ∀ e ∈ (runMain args env).1, isPostCheckMutation e = false := by
  have hE : env.searchResult.rows.isEmpty = true := by rw [h]; rfl
  unfold runMain
  rw [if_pos hE]
  refine ⟨rfl, ?_⟩
  intro e he
  simp only [setupEvents, List.mem_cons, List.not_mem_nil, or_false] at he
  rcases he with h | h | h | h <;> subst h <;> rfl

theorem C1_witness :
    (envEmpty.searchResult.rows = []) ∧
    (runMain argsW envEmpty).2 = Outcome.exited 1 :=
  ⟨rfl, (C1_zero_traces_amended argsW envEmpty rfl).1⟩

/-- C1 counterexample: in a concrete zero-trace run the event trace contains
the `CREATE SCHEMA IF NOT EXISTS` statement — a schema mutation issued before
the exit — so the claim's "no schema mutation of any kind is performed before
exit" is false as stated. -/
theorem C1_counterexample :
    (runMain argsW envEmpty).2 = Outcome.exited 1 ∧
    Event.sqlCreateSchemaIfNotExists "main" "agent_review" ∈ (runMain argsW envEmpty).1 ∧
    isSchemaMutation (Event.sqlCreateSchemaIfNotExists "main" "agent_review") = true := by
  decide

/-- C3: the notification step's external calls occur if and only if the
lowercased `--notify-users` value equals `"true"` and `--slack-secret-scope`
is non-empty (for runs that reach step 7, i.e. with at least one trace row);
in every other combination zero chat-path calls occur in any run. -/
theorem C3_notification_gate (args : Args) (env : Env) :
    (¬(pyLower args.notify_users = "true" ∧ args.slack_secret_scope ≠ "") →
      ∀ e ∈ (runMain args env).1, isChatServiceCall e = false) ∧
    ((pyLower args.notify_users = "true" ∧ args.slack_secret_scope ≠ "") →
      env.searchResult.rows ≠ [] →
      Event.secretsGet args.slack_secret_scope "slack-bot-token" ∈ (runMain args env).1 ∧
      Event.usersLookupByEmail NOTIFY_EMAIL ∈ (runMain args env).1 ∧
      Event.chatPostMessage env.slackChannel
        (slackText (sessionNameOf args env)
          (applyTraceRenames env.searchResult).rows.length
          (parseReviewerEmails args.reviewer_emails) env.sessionUrl) ∈
        (runMain args env).1) := by
  constructor
  · intro hcond e he
    have hnc : ¬ notifyCondition args = true :=
      fun hc => hcond ((notifyCondition_iff args).mp hc)
    unfold runMain at he
    by_cases hE : env.searchResult.rows.isEmpty = true
    · rw [if_pos hE] at he
      exact no_chat_in_setup args e he
    · rw [if_neg hE, if_neg hnc] at he
      exact no_chat_in_core args env e he
  · intro hcond hrows
    have hnc : notifyCondition args = true := (notifyCondition_iff args).mpr hcond
    have hE : ¬ env.searchResult.rows.isEmpty = true := by
      rw [List.isEmpty_iff]; exact hrows
    unfold runMain
    rw [if_neg hE, if_pos hnc]
    refine ⟨?_, ?_, ?_⟩ <;>
      exact List.mem_append_right _ (by
        simp [notifyEvents, sendSlackNotificationEvents])

theorem C3_witness :
    (pyLower argsW.notify_users = "true" ∧ argsW.slack_secret_scope ≠ "") ∧
    Event.secretsGet "scope1" "slack-bot-token" ∈ (runMain argsW envW).1 :=
  ⟨⟨by decide, by decide⟩,
   ((C3_notification_gate argsW envW).2 ⟨by decide, by decide⟩ (by decide)).1⟩

/-- C6: when the trace query returns at least one row, the dataset merge is
called exactly once, on the fetched frame with the conditional renames
applied, and the renames preserve the rows exactly (count and order). -/
theorem C6_merge_rows (args : Args) (env : Env) (h : env.searchResult.rows ≠ []) :
    (runMain args env).1.filter isMergeEvent =
      [Event.mergeRecords (ucTableNameOf args env) (applyTraceRenames env.searchResult)] ∧
    (applyTraceRenames env.searchResult).rows = env.searchResult.rows := by
  have hE : ¬ env.searchResult.rows.isEmpty = true := by
    rw [List.isEmpty_iff]; exact h
  refine ⟨?_, applyTraceRenames_rows env.searchResult⟩
  unfold runMain
  by_cases hnc : notifyCondition args = true
  · rw [if_neg hE, if_pos hnc]
    show (coreEvents args env ++ notifyEvents args env).filter isMergeEvent = _
    rw [List.filter_append, filter_merge_core, filter_merge_notify, List.append_nil]
  · rw [if_neg hE, if_neg hnc]
    exact filter_merge_core args env

theorem C6_witness :
    (envW.searchResult.rows ≠ []) ∧
    (runMain argsW envW).1.filter isMergeEvent =
      [Event.mergeRecords (ucTableNameOf argsW envW) (applyTraceRenames envW.searchResult)] :=
  ⟨by decide, (C6_merge_rows argsW envW (by decide)).1⟩

/-- C7: the session name is the sanitized prefix, an underscore, and the
local-clock timestamp formatted as the 15-character `YYYYMMDD_HHMMSS`; the
dataset name is `catalog.schema.session_name`; and those names are the ones
the run passes to session creation and dataset resolution. -/
theorem C7_names (args : Args) (env : Env) (h : env.searchResult.rows ≠ []) :
    sessionNameOf args env =
      sanitizePfx args.session_name_pfx ++ "_" ++ formatTimestamp env.now ∧
    (formatTimestamp env.now).length = 15 ∧
    ucTableNameOf args env =
      args.uc_catalog ++ "." ++ args.uc_schema ++ "." ++ sessionNameOf args env ∧
    Event.createLabelingSession (sessionNameOf args env)
      (parseReviewerEmails args.reviewer_emails) [LABEL_SCHEMA_NAME] ∈
      (runMain args env).1 ∧
    Event.getDataset (ucTableNameOf args env) ∈ (runMain args env).1 := by
  have hE : ¬ env.searchResult.rows.isEmpty = true := by
    rw [List.isEmpty_iff]; exact h
  refine ⟨rfl, formatTimestamp_length env.now, rfl, ?_, ?_⟩
  · unfold runMain
    rw [if_neg hE]
    by_cases hnc : notifyCondition args = true
    · rw [if_pos hnc]
      exact List.mem_append_left _ (session_mem_core args env)
    · rw [if_neg hnc]
      exact session_mem_core args env
  · unfold runMain
    rw [if_neg hE]
    by_cases hnc : notifyCondition args = true
    · rw [if_pos hnc]
      exact List.mem_append_left _ (getDataset_mem_core args env)
    · rw [if_neg hnc]
      exact getDataset_mem_core args env

theorem C7_witness :
    (envW.searchResult.rows ≠ []) ∧
    sessionNameOf argsW envW = "agent_review__20261012_093005" ∧
    Event.getDataset (ucTableNameOf argsW envW) ∈ (runMain argsW envW).1 :=
  ⟨by decide, by decide, (C7_names argsW envW (by decide)).2.2.2.2⟩

/-- C8: on every run that reaches step 5 the label-schema registration is
called exactly once, with the fixed name `conversation_quality`, a numeric
input from 1 to 5, comment enabled and the overwrite flag set — the same
parameters regardless of arguments or environment. -/
theorem C8_label_schema (args : Args) (env : Env) (h : env.searchResult.rows ≠ []) :
    (runMain args env).1.filter isLabelSchemaEvent =
      [Event.createLabelSchema "conversation_quality" "feedback"
        "Conversation Quality (1–5)" 1 5 true true] ∧
    LABEL_SCHEMA_NAME = "conversation_quality" := by
  have hE : ¬ env.searchResult.rows.isEmpty = true := by
    rw [List.isEmpty_iff]; exact h
  refine ⟨?_, rfl⟩
  unfold runMain
  by_cases hnc : notifyCondition args = true
  · rw [if_neg hE, if_pos hnc]
    show (coreEvents args env ++ notifyEvents args env).filter isLabelSchemaEvent = _
    rw [List.filter_append, filter_schema_core, filter_schema_notify, List.append_nil]
  · rw [if_neg hE, if_neg hnc]
    exact filter_schema_core args env

theorem C8_witness :
    (envW.searchResult.rows ≠ []) ∧
    (runMain argsW envW).1.filter isLabelSchemaEvent =
      [Event.createLabelSchema "conversation_quality" "feedback"
        "Conversation Quality (1–5)" 1 5 true true] :=
  ⟨by decide, (C8_label_schema argsW envW (by decide)).1⟩

/-- C9: in every run, every chat-path call comes strictly after every merge,
label-schema registration and session-creation event; and when the Slack post
raises in a notifying run, the process crashes while the merge, the schema
registration and the session creation are already in the trace (no rollback). -/
theorem C9_notification_ordering (args : Args) (env : Env) :
    (∀ (i j : Nat) (hi : i < (runMain args env).1.length)
        (hj : j < (runMain args env).1.length),
      isChatServiceCall ((runMain args env).1.get ⟨i, hi⟩) = true →
      isPriorStepEvent ((runMain args env).1.get ⟨j, hj⟩) = true → j < i) ∧
    (env.chatPostRaises = true → notifyCondition args = true →
      env.searchResult.rows ≠ [] →
      (runMain args env).2 = Outcome.crashed ∧
      Event.mergeRecords (ucTableNameOf args env) (applyTraceRenames env.searchResult) ∈
        (runMain args env).1 ∧
      Event.createLabelSchema "conversation_quality" "feedback"
        "Conversation Quality (1–5)" 1 5 true true ∈ (runMain args env).1 ∧
      Event.createLabelingSession (sessionNameOf args env)
        (parseReviewerEmails args.reviewer_emails) [LABEL_SCHEMA_NAME] ∈
        (runMain args env).1) := by
  constructor
  · by_cases hE : env.searchResult.rows.isEmpty = true
    · exact ordered_of_split isChatServiceCall isPriorStepEvent _
        (setupEvents args) []
        (by unfold runMain; rw [if_pos hE, List.append_nil])
        (no_chat_in_setup args)
        (fun e he => absurd he (List.not_mem_nil e))
    · by_cases hnc : notifyCondition args = true
      · exact ordered_of_split isChatServiceCall isPriorStepEvent _
          (coreEvents args env) (notifyEvents args env)
          (by unfold runMain; rw [if_neg hE, if_pos hnc])
          (no_chat_in_core args env)
          (no_prior_in_notify args env)
      · exact ordered_of_split isChatServiceCall isPriorStepEvent _
          (coreEvents args env) []
          (by unfold runMain; rw [if_neg hE, if_neg hnc, List.append_nil])
          (no_chat_in_core args env)
          (fun e he => absurd he (List.not_mem_nil e))
  · intro hcr hnc hrows
    have hE : ¬ env.searchResult.rows.isEmpty = true := by
      rw [List.isEmpty_iff]; exact hrows
    unfold runMain
    rw [if_neg hE, if_pos hnc]
    refine ⟨?_, ?_, ?_, ?_⟩
    · show (if env.chatPostRaises then Outcome.crashed else Outcome.success) = _
      rw [if_pos hcr]
    · exact List.mem_append_left _ (merge_mem_core args env)
    · exact List.mem_append_left _ (labelSchema_mem_core args env)
    · exact List.mem_append_left _ (session_mem_core args env)

theorem C9_witness :
    (envW.chatPostRaises = true ∧ notifyCondition argsW = true ∧
      envW.searchResult.rows ≠ []) ∧
    (runMain argsW envW).2 = Outcome.crashed ∧
    (5 : Nat) < 9 :=
  ⟨⟨rfl, by decide, by decide⟩,
   ((C9_notification_ordering argsW envW).2 rfl (by decide) (by decide)).1,
   (C9_notification_ordering argsW envW).1 9 5 (by decide) (by decide)
     (by decide) (by decide)⟩
